import Mathlib

/-!
A shallow embedding of `src/app.py` (a small Flask application) and proofs
about its route contract.

Modelling conventions:
* `World` collects everything a request handler reads from its surroundings:
  the process environment (`os.getenv`), the machine hostname
  (`socket.gethostname()`), the wall clock (`datetime.now()`) and the
  interpreter version string (`os.sys.version`).
* JSON responses (`flask.jsonify`) are modelled as a `Json` value paired with
  a status code; the HTML home page as a rendered `String`.
* `datetime.isoformat` and `strftime('%Y-%m-%d %H:%M:%S')` are modelled as
  fixed-width decimal formatting, which agrees with CPython on every datetime
  satisfying the `datetime` invariants (`DateTime.WF` below).
* Jinja2 autoescapes string templates under Flask, so interpolated values go
  through `htmlEscape` (the model of `markupsafe.escape`).
-/

/-- The components of a Python `datetime.datetime` value. -/
structure DateTime where
  year : Nat
  month : Nat
  day : Nat
  hour : Nat
  minute : Nat
  second : Nat
  microsecond : Nat
deriving DecidableEq, Repr

/-- The invariants `datetime.datetime` maintains on its fields
(`MINYEAR = 1`, `MAXYEAR = 9999`, and the usual calendar bounds; we keep the
uniform `day ≤ 31` upper bound). Every value `datetime.now()` can return
satisfies this. -/
def DateTime.WF (t : DateTime) : Prop :=
  1 ≤ t.year ∧ t.year ≤ 9999 ∧ 1 ≤ t.month ∧ t.month ≤ 12 ∧
  1 ≤ t.day ∧ t.day ≤ 31 ∧ t.hour ≤ 23 ∧ t.minute ≤ 59 ∧
  t.second ≤ 59 ∧ t.microsecond ≤ 999999

instance (t : DateTime) : Decidable t.WF := by
  unfold DateTime.WF; infer_instance

/-- The decimal digit character for `n` (meaningful for `n < 10`). -/
def digitChar (n : Nat) : Char := Char.ofNat (48 + n)

/-- Two-digit zero-padded decimal, as `strftime` `%m`/`%d`/`%H`/`%M`/`%S`
produce for arguments below 100. -/
def twoDigits (n : Nat) : List Char := [digitChar (n / 10), digitChar (n % 10)]

/-- Four-digit zero-padded decimal, as `%Y` produces for years 1..9999. -/
def fourDigits (n : Nat) : List Char :=
  [digitChar (n / 1000), digitChar (n / 100 % 10), digitChar (n / 10 % 10), digitChar (n % 10)]

/-- Six-digit zero-padded decimal, as `isoformat` prints microseconds. -/
def sixDigits (n : Nat) : List Char :=
  [digitChar (n / 100000), digitChar (n / 10000 % 10), digitChar (n / 1000 % 10),
   digitChar (n / 100 % 10), digitChar (n / 10 % 10), digitChar (n % 10)]

/-- The character list of `datetime.isoformat()`:
`YYYY-MM-DDTHH:MM:SS` with `.ffffff` appended exactly when the microsecond
field is nonzero (CPython omits it when it is 0). -/
def isoformatChars (t : DateTime) : List Char :=
  fourDigits t.year ++ '-' :: twoDigits t.month ++ '-' :: twoDigits t.day ++
  'T' :: twoDigits t.hour ++ ':' :: twoDigits t.minute ++ ':' :: twoDigits t.second ++
  (if t.microsecond = 0 then [] else '.' :: sixDigits t.microsecond)

/-- `datetime.isoformat()` as a string. -/
def isoformat (t : DateTime) : String := ⟨isoformatChars t⟩

/-- `datetime.strftime('%Y-%m-%d %H:%M:%S')`, the format the home page uses. -/
def strftimeChars (t : DateTime) : List Char :=
  fourDigits t.year ++ '-' :: twoDigits t.month ++ '-' :: twoDigits t.day ++
  ' ' :: twoDigits t.hour ++ ':' :: twoDigits t.minute ++ ':' :: twoDigits t.second

/-- The home page's time string. -/
def strftimeYmdHms (t : DateTime) : String := ⟨strftimeChars t⟩

/-- The value of a decimal digit character, `none` on anything else. -/
def digitVal (c : Char) : Option Nat :=
  if c = '0' then some 0 else if c = '1' then some 1 else if c = '2' then some 2
  else if c = '3' then some 3 else if c = '4' then some 4 else if c = '5' then some 5
  else if c = '6' then some 6 else if c = '7' then some 7 else if c = '8' then some 8
  else if c = '9' then some 9 else none

/-- A two-digit decimal number. -/
def twoVal (a b : Char) : Option Nat := do
  let x ← digitVal a
  let y ← digitVal b
  pure (10 * x + y)

/-- A four-digit decimal number. -/
def fourVal (a b c d : Char) : Option Nat := do
  let x ← twoVal a b
  let y ← twoVal c d
  pure (100 * x + y)

/-- A six-digit decimal number. -/
def sixVal (a b c d e f : Char) : Option Nat := do
  let x ← fourVal a b c d
  let y ← twoVal e f
  pure (100 * x + y)

/-- A parser for the ISO-8601 strings `datetime.fromisoformat` accepts in the
shape `isoformat` emits: `YYYY-MM-DDTHH:MM:SS` with an optional `.ffffff`
fraction, with the calendar ranges checked. `some` means the string is a
parseable ISO-8601 datetime. -/
def parseIsoChars (l : List Char) : Option DateTime :=
  match l with
  | y1 :: y2 :: y3 :: y4 :: c1 :: m1 :: m2 :: c2 :: d1 :: d2 :: c3 ::
    h1 :: h2 :: c4 :: n1 :: n2 :: c5 :: s1 :: s2 :: rest =>
    if c1 = '-' ∧ c2 = '-' ∧ c3 = 'T' ∧ c4 = ':' ∧ c5 = ':' then do
      let y ← fourVal y1 y2 y3 y4
      let mo ← twoVal m1 m2
      let d ← twoVal d1 d2
      let h ← twoVal h1 h2
      let mi ← twoVal n1 n2
      let s ← twoVal s1 s2
      let u ← (match rest with
        | [] => some 0
        | dot :: u1 :: u2 :: u3 :: u4 :: u5 :: [u6] =>
          if dot = '.' then sixVal u1 u2 u3 u4 u5 u6 else none
        | _ => none)
      let t : DateTime := ⟨y, mo, d, h, mi, s, u⟩
      if t.WF then some t else none
    else none
  | _ => none

/-- JSON values, as much of JSON as `app.py` produces. -/
inductive Json where
  | str (s : String)
  | num (n : Int)
  | obj (fields : List (String × Json))

/-- Field lookup in a JSON object (first binding wins, as in a Python dict
built from distinct keys). -/
def Json.lookup (j : Json) (k : String) : Option Json :=
  match j with
  | .obj fs => fs.lookup k
  | _ => none

/-- The keys of a JSON object, in insertion order (Python dicts preserve it). -/
def Json.keys (j : Json) : List String :=
  match j with
  | .obj fs => fs.map Prod.fst
  | _ => []

/-- A response body: rendered HTML or a `jsonify` payload. -/
inductive Body where
  | html (s : String)
  | json (j : Json)

/-- An HTTP response: status code and body. -/
structure Response where
  status : Nat
  body : Body

/-- The JSON payload of a response (`Json.obj []` for HTML bodies). -/
def Response.json (r : Response) : Json :=
  match r.body with
  | .json j => j
  | .html _ => .obj []

/-- Everything a handler reads from outside the request: the process
environment, `socket.gethostname()`, `datetime.now()` and `os.sys.version`. -/
structure World where
  env : String → Option String
  hostname : String
  now : DateTime
  pyVersion : String

/-- An incoming HTTP request, as far as routing looks at it. -/
structure Request where
  path : String
  method : String

/-- `os.getenv(key, default)`. -/
def getenv (env : String → Option String) (key default : String) : String :=
  (env key).getD default

/-- What `markupsafe.escape` substitutes for one character
(`&`, `<`, `>`, `"` and the apostrophe, code 39, get entity references). -/
def escChar (c : Char) : String :=
  if c = '&' then "&amp;"
  else if c = '<' then "&lt;"
  else if c = '>' then "&gt;"
  else if c = '"' then "&#34;"
  else if c = Char.ofNat 39 then "&#39;"
  else ⟨[c]⟩

/-- HTML-escape a character list. -/
def escapeList : List Char → List Char
  | [] => []
  | c :: cs => (escChar c).data ++ escapeList cs

/-- `markupsafe.escape`: Jinja2 applies it to every interpolated value because
Flask turns autoescaping on for string templates. -/
def htmlEscape (s : String) : String := ⟨escapeList s.data⟩

/-- A string free of HTML-escapable characters: escaping it is the identity.
Machine hostnames and the values `app.py` interpolates in practice satisfy
this. -/
def HtmlSafe (s : String) : Prop := ∀ c ∈ s.data, escChar c = (⟨[c]⟩ : String)

instance (s : String) : Decidable (HtmlSafe s) := by
  unfold HtmlSafe; infer_instance

/-- `sub` occurs contiguously inside `s`. -/
def Contains (s sub : String) : Prop := List.IsInfix sub.data s.data
/-- A literal chunk of `HTML_TEMPLATE` from `app.py` (the template split at its
interpolation points so that rendering is explicit concatenation). -/
def tpl0a : String := "
<!DOCTYPE html>
<html lang=\"en\">
<head>
    <meta charset=\"UTF-8\">
    <meta name=\"viewport\" content=\"width=device-width, initial-scale=1.0\">
    <title>HNG13 DevOps - Stage 1</title>
    <style>
        * \x7b
            margin: 0;
            padding: 0;
            box-sizing: border-box;
        \x7d
        
        body \x7b
            font-family: \x27Segoe UI\x27, Tahoma, Geneva, Verdana, sans-serif;
            background: linear-gradient(135deg, #667eea 0%, #764ba2 100%);
            min-height: 100vh;
            display: flex;
            justify-content: center;
            align-items: center;
            padding: 20px;
        \x7d
        
        .container \x7b
            background: white;
            border-radius: 20px;
            box-shadow: 0 20px 60px rgba(0, 0, 0, 0.3);
            padding: 40px;
            max-width: 600px;
            width: 100%;
            animation: slideIn 0.5s ease-out;
        \x7d
        
        @keyframes slideIn \x7b
            from \x7b
                opacity: 0;
                transform: translateY(-30px);
            \x7d
            to \x7b
                opacity: 1;
                transform: translateY(0);
            \x7d
        \x7d
        
        h1 \x7b
            color: #333;
            margin-bottom: 10px;
            font-size: 2.5em;
            text-align: center;
        \x7d
        
        .subtitle \x7b
            color: #667eea;
            text-align: center;
            font-size: 1.2em;
            margin-bottom: 30px;
            font-weight: 500;
        \x7d
        
        .status \x7b
            background: #f0f4ff;
            border-left: 4px solid #667eea;
            padding: 20px;
            border-radius: 8px;
            margin: 20px 0;
        \x7d
        
        .status-item \x7b
            display: flex;
            justify-content: space-between;
            padding: 10px 0;
            border-bottom: 1px solid #e0e0e0;
        \x7d
        
        .status-item:last-child \x7b
            border-bottom: none;
        \x7d
        
        .label \x7b
            font-weight: 600;
            color: #555;
        \x7d
        
        .value \x7b
            color: #667eea;
            font-family: \x27Courier New\x27, monospace;
        \x7d
        
        .success \x7b
            background: #d4edda;
            color: #155724;
            padding: 15px;
            border-radius: 8px;
            text-align: center;
            font-weight: 600;
            margin-top: 20px;
        \x7d
        
        .api-link \x7b
            display: block;
            background: #667eea;
            color: white;
            text-decoration: none;
            padding: 12px 24px;
            border-radius: 8px;
            text-align: center;
            margin-top: 20px;
            transition: background 0.3s;
        \x7d
        
        .api-link:hover \x7b
            background: #764ba2;
        \x7d
        
        .footer \x7b
            text-align: center;
            margin-top: 30px;
            color: #888;
            font-size: 0.9em;
        \x7d
        
        .badge \x7b
            display: inline-block;
            background: #28a745;
            color: white;
            padding: 4px 12px;
            border-radius: 12px;
            font-size: 0.8em;
            font-weight: 600;
        \x7d
    </style>
</head>
<body>
    <div class=\"container\">
        <h1>🚀 HNG13 DevOps</h1>
        <div class=\"subtitle\">Stage 1 - Automated Deployment</div>
        
        <div class=\"success\">
            ✅ Application Successfully Deployed!
        </div>
        
        <div class=\"status\">
            <div class=\"status-item\">
                <span class=\"label\">Status:</span>
                <span class=\"value\"><span class=\"badge\">"

/-- A literal chunk of `HTML_TEMPLATE` from `app.py` (the template split at its
interpolation points so that rendering is explicit concatenation). -/
def tpl0b : String := "</span></span>
            </div>
            <div class=\"status-item\">
                <span class=\"label\">Hostname:</span>
                <span class=\"value\">"

/-- A literal chunk of `HTML_TEMPLATE` from `app.py` (the template split at its
interpolation points so that rendering is explicit concatenation). -/
def tpl1 : String := "</span>
            </div>
            <div class=\"status-item\">
                <span class=\"label\">Server Time:</span>
                <span class=\"value\">"

/-- A literal chunk of `HTML_TEMPLATE` from `app.py` (the template split at its
interpolation points so that rendering is explicit concatenation). -/
def tpl2 : String := "</span>
            </div>
            <div class=\"status-item\">
                <span class=\"label\">Port:</span>
                <span class=\"value\">"

/-- A literal chunk of `HTML_TEMPLATE` from `app.py` (the template split at its
interpolation points so that rendering is explicit concatenation). -/
def tpl3 : String := "</span>
            </div>
            <div class=\"status-item\">
                <span class=\"label\">Environment:</span>
                <span class=\"value\">"

/-- A literal chunk of `HTML_TEMPLATE` from `app.py` (the template split at its
interpolation points so that rendering is explicit concatenation). -/
def tpl4 : String := "</span>
            </div>
        </div>
        
        <a href=\"/api/health\" class=\"api-link\">📊 Check Health API</a>
        <a href=\"/api/info\" class=\"api-link\">ℹ️ View System Info</a>
        
        <div class=\"footer\">
            <p>Deployed with ❤️ using Docker & Nginx</p>
            <p style=\"margin-top: 5px;\">HNG Internship 13.0 | DevOps Track</p>
        </div>
    </div>
</body>
</html>
"

/-- `HTML_TEMPLATE` from `app.py`: the chunks with the Jinja2 placeholders
back in place. -/
def HTML_TEMPLATE : String :=
  tpl0a ++ "RUNNING" ++ tpl0b ++ "\x7b\x7b hostname \x7d\x7d" ++ tpl1 ++
  "\x7b\x7b current_time \x7d\x7d" ++ tpl2 ++ "\x7b\x7b port \x7d\x7d" ++ tpl3 ++
  "\x7b\x7b environment \x7d\x7d" ++ tpl4

/-- `render_template_string(HTML_TEMPLATE, hostname=..., current_time=...,
port=..., environment=...)`: each placeholder is replaced by the autoescaped
value. -/
def renderHome (hostname current_time port environment : String) : String :=
  tpl0a ++ "RUNNING" ++ tpl0b ++ htmlEscape hostname ++ tpl1 ++
  htmlEscape current_time ++ tpl2 ++ htmlEscape port ++ tpl3 ++
  htmlEscape environment ++ tpl4

/-- The `home` handler (route `/`): renders the status page with
`socket.gethostname()`, `datetime.now().strftime('%Y-%m-%d %H:%M:%S')`,
`os.getenv('PORT', '5000')` and `os.getenv('ENVIRONMENT', 'production')`. -/
def home (w : World) : Response :=
  ⟨200, .html (renderHome w.hostname (strftimeYmdHms w.now)
      (getenv w.env "PORT" "5000") (getenv w.env "ENVIRONMENT" "production"))⟩

/-- The `health` handler (route `/api/health`). -/
def health (w : World) : Response :=
  ⟨200, .json (.obj
    [("status", .str "healthy"),
     ("timestamp", .str (isoformat w.now)),
     ("service", .str "hng13-devops-stage1"),
     ("version", .str "1.0.0")])⟩

/-- The `info` handler (route `/api/info`). -/
def info (w : World) : Response :=
  ⟨200, .json (.obj
    [("application", .str "HNG13 DevOps Stage 1"),
     ("hostname", .str w.hostname),
     ("timestamp", .str (isoformat w.now)),
     ("port", .str (getenv w.env "PORT" "5000")),
     ("environment", .str (getenv w.env "ENVIRONMENT" "production")),
     ("python_version", .str w.pyVersion),
     ("status", .str "running")])⟩

/-- The `status` handler (route `/api/status`). -/
def status (_w : World) : Response :=
  ⟨200, .json (.obj
    [("status", .str "ok"),
     ("message", .str "Application is running successfully")])⟩

/-- The `not_found` handler registered with `@app.errorhandler(404)`. -/
def not_found : Response :=
  ⟨404, .json (.obj
    [("error", .str "Not Found"),
     ("message", .str "The requested endpoint does not exist"),
     ("status", .num 404)])⟩

/-- The `internal_error` handler registered with `@app.errorhandler(500)`. -/
def internal_error : Response :=
  ⟨500, .json (.obj
    [("error", .str "Internal Server Error"),
     ("message", .str "An unexpected error occurred"),
     ("status", .num 500)])⟩

/-- The paths `app.py` registers with `@app.route` (all of them GET-only,
Flask's default). -/
def routes : List String := ["/", "/api/health", "/api/info", "/api/status"]

/-- Werkzeug's stock 405 page, returned by the framework when a registered
path is hit with a method the route does not list; `app.py` registers no
handler for it, so it stays the framework default (an HTML body). -/
def methodNotAllowed : Response :=
  ⟨405, .html "<!doctype html>\n<html lang=en>\n<title>405 Method Not Allowed</title>\n<h1>Method Not Allowed</h1>\n<p>The method is not allowed for the requested URL.</p>\n"⟩

/-- Flask's URL dispatch for the routes `app.py` registers: a registered path
with method GET runs its handler; a registered path with another method gets
the framework 405; any other path goes to the `not_found` error handler. -/
def dispatch (w : World) (r : Request) : Response :=
  if r.path = "/" then
    (if r.method = "GET" then home w else methodNotAllowed)
  else if r.path = "/api/health" then
    (if r.method = "GET" then health w else methodNotAllowed)
  else if r.path = "/api/info" then
    (if r.method = "GET" then info w else methodNotAllowed)
  else if r.path = "/api/status" then
    (if r.method = "GET" then status w else methodNotAllowed)
  else not_found

/-- Flask's request boundary (`full_dispatch_request` with debug off, as the
app configures by default): when the handler finishes, its response is
returned; when it raises any exception, the `@app.errorhandler(500)` handler
`internal_error` produces the response, and control returns to the server
loop either way. `exc` abstracts whether (and with what message) the handler
raised. -/
def request_boundary (w : World) (r : Request) (exc : Option String) : Response :=
  match exc with
  | some _ => internal_error
  | none => dispatch w r

/-- Python `str.lower()` (restricted to ASCII case mapping, which covers every
string `app.py` compares against). -/
def pyLower (s : String) : String := ⟨s.data.map Char.toLower⟩

/-- `os.getenv('DEBUG', 'False').lower() == 'true'` from the `__main__`
block. -/
def debugFlag (env : String → Option String) : Bool :=
  pyLower ((env "DEBUG").getD "False") == "true"

/-- Accumulate decimal digits; `none` on a non-digit character. -/
def natOfDigits : List Char → Nat → Option Nat
  | [], acc => some acc
  | c :: cs, acc =>
    match digitVal c with
    | none => none
    | some d => natOfDigits cs (10 * acc + d)

/-- Python `int(str)` (an optional sign followed by at least one decimal
digit; the whitespace and underscore liberality of CPython is irrelevant to
the values considered here), `none` when `int` would raise `ValueError`. -/
def pyInt (s : String) : Option Int :=
  match s.data with
  | [] => none
  | '-' :: cs =>
    (match cs with
     | [] => none
     | _ => (natOfDigits cs 0).map (fun n => -(n : Int)))
  | '+' :: cs =>
    (match cs with
     | [] => none
     | _ => (natOfDigits cs 0).map (fun n => (n : Int)))
  | cs => (natOfDigits cs 0).map (fun n => (n : Int))

/-- `int(os.getenv('PORT', 5000))` from the `__main__` block: the default is
the Python int `5000`, so only a set `PORT` goes through string parsing. -/
def portNumber (env : String → Option String) : Option Int :=
  match env "PORT" with
  | none => some 5000
  | some s => pyInt s

/-- What `app.run(host='0.0.0.0', port=port, debug=debug)` is called with. -/
structure StartupConfig where
  host : String
  port : Int
  debug : Bool
deriving DecidableEq, Repr

/-- The `__main__` block: compute the port and debug flag from the
environment and start the server; a non-integer `PORT` makes `int()` raise
`ValueError` before the server starts. -/
def mainStartup (env : String → Option String) : Except String StartupConfig :=
  match portNumber env with
  | none => .error "ValueError"
  | some p => .ok ⟨"0.0.0.0", p, debugFlag env⟩
/-! ### Helper lemmas -/

theorem string_data_append (a b : String) : (a ++ b).data = a.data ++ b.data := rfl

theorem contains_refl (s : String) : Contains s s := List.infix_refl s.data

theorem Contains.prepend {s x : String} (h : Contains s x) (t : String) :
    Contains (t ++ s) x := by
  unfold Contains at *
  rw [string_data_append]
  exact h.trans (List.suffix_append t.data s.data).isInfix

theorem Contains.extend {s x : String} (h : Contains s x) (t : String) :
    Contains (s ++ t) x := by
  unfold Contains at *
  rw [string_data_append]
  exact h.trans (List.prefix_append s.data t.data).isInfix

/-- A character list every character of which escapes to itself. -/
def SafeChars (l : List Char) : Prop := ∀ c ∈ l, escChar c = (⟨[c]⟩ : String)

theorem escapeList_safe {l : List Char} (h : SafeChars l) : escapeList l = l := by
  induction l with
  | nil => rfl
  | cons c cs ih =>
    have hc : escChar c = (⟨[c]⟩ : String) := h c (List.mem_cons_self c cs)
    have hcs : SafeChars cs := fun d hd => h d (List.mem_cons_of_mem c hd)
    simp [escapeList, hc, ih hcs]

theorem htmlEscape_safe {s : String} (h : HtmlSafe s) : htmlEscape s = s := by
  unfold htmlEscape
  rw [escapeList_safe h]

theorem safeChars_append {l m : List Char} (hl : SafeChars l) (hm : SafeChars m) :
    SafeChars (l ++ m) := by
  intro c hc
  rcases List.mem_append.mp hc with h | h
  · exact hl c h
  · exact hm c h

theorem safeChars_cons {c : Char} {l : List Char} (hc : escChar c = (⟨[c]⟩ : String))
    (hl : SafeChars l) : SafeChars (c :: l) := by
  intro d hd
  rcases List.mem_cons.mp hd with rfl | h
  · exact hc
  · exact hl d h

theorem escChar_digitChar {k : Nat} (hk : k < 10) : escChar (digitChar k) = (⟨[digitChar k]⟩ : String) := by
  interval_cases k <;> decide

theorem safeChars_twoDigits {n : Nat} (h : n < 100) : SafeChars (twoDigits n) := by
  refine safeChars_cons (escChar_digitChar (by omega)) ?_
  refine safeChars_cons (escChar_digitChar (by omega)) ?_
  intro c hc
  cases hc

theorem safeChars_fourDigits {n : Nat} (h : n < 10000) : SafeChars (fourDigits n) := by
  refine safeChars_cons (escChar_digitChar (by omega)) ?_
  refine safeChars_cons (escChar_digitChar (by omega)) ?_
  refine safeChars_cons (escChar_digitChar (by omega)) ?_
  refine safeChars_cons (escChar_digitChar (by omega)) ?_
  intro c hc
  cases hc

theorem htmlSafe_strftime {t : DateTime} (h : t.WF) : HtmlSafe (strftimeYmdHms t) := by
  obtain ⟨_, h2, _, h4, _, h6, h7, h8, h9, _⟩ := h
  show SafeChars (strftimeChars t)
  unfold strftimeChars
  have hA : SafeChars (fourDigits t.year) := safeChars_fourDigits (by omega)
  have hB : SafeChars ('-' :: twoDigits t.month) :=
    safeChars_cons (by decide) (safeChars_twoDigits (by omega))
  have hC : SafeChars ('-' :: twoDigits t.day) :=
    safeChars_cons (by decide) (safeChars_twoDigits (by omega))
  have hD : SafeChars (' ' :: twoDigits t.hour) :=
    safeChars_cons (by decide) (safeChars_twoDigits (by omega))
  have hE : SafeChars (':' :: twoDigits t.minute) :=
    safeChars_cons (by decide) (safeChars_twoDigits (by omega))
  have hF : SafeChars (':' :: twoDigits t.second) :=
    safeChars_cons (by decide) (safeChars_twoDigits (by omega))
  exact safeChars_append (safeChars_append (safeChars_append (safeChars_append
    (safeChars_append hA hB) hC) hD) hE) hF

theorem digitVal_digitChar {k : Nat} (hk : k < 10) : digitVal (digitChar k) = some k := by
  interval_cases k <;> decide

theorem twoVal_digits {n : Nat} (h : n < 100) :
    twoVal (digitChar (n / 10)) (digitChar (n % 10)) = some n := by
  have h1 : digitVal (digitChar (n / 10)) = some (n / 10) := digitVal_digitChar (by omega)
  have h2 : digitVal (digitChar (n % 10)) = some (n % 10) := digitVal_digitChar (by omega)
  simp only [twoVal, h1, h2, Option.bind_eq_bind, Option.some_bind]
  exact congrArg some (by omega)

theorem fourVal_digits {n : Nat} (h : n < 10000) :
    fourVal (digitChar (n / 1000)) (digitChar (n / 100 % 10))
      (digitChar (n / 10 % 10)) (digitChar (n % 10)) = some n := by
  have e1 : n / 1000 = n / 100 / 10 := by omega
  have e2 : n / 100 % 10 = n / 100 % 10 := rfl
  have e3 : n / 10 % 10 = n % 100 / 10 := by omega
  have e4 : n % 10 = n % 100 % 10 := by omega
  rw [e1, e3, e4]
  have g1 : twoVal (digitChar (n / 100 / 10)) (digitChar (n / 100 % 10)) = some (n / 100) :=
    twoVal_digits (by omega)
  have g2 : twoVal (digitChar (n % 100 / 10)) (digitChar (n % 100 % 10)) = some (n % 100) :=
    twoVal_digits (by omega)
  simp only [fourVal, g1, g2, Option.bind_eq_bind, Option.some_bind]
  exact congrArg some (by omega)

theorem sixVal_digits {n : Nat} (h : n < 1000000) :
    sixVal (digitChar (n / 100000)) (digitChar (n / 10000 % 10)) (digitChar (n / 1000 % 10))
      (digitChar (n / 100 % 10)) (digitChar (n / 10 % 10)) (digitChar (n % 10)) = some n := by
  have e1 : n / 100000 = n / 100 / 1000 := by omega
  have e2 : n / 10000 % 10 = n / 100 / 100 % 10 := by omega
  have e3 : n / 1000 % 10 = n / 100 / 10 % 10 := by omega
  have e4 : n / 100 % 10 = n / 100 % 10 := rfl
  have e5 : n / 10 % 10 = n % 100 / 10 := by omega
  have e6 : n % 10 = n % 100 % 10 := by omega
  rw [e1, e2, e3, e5, e6]
  have g1 : fourVal (digitChar (n / 100 / 1000)) (digitChar (n / 100 / 100 % 10))
      (digitChar (n / 100 / 10 % 10)) (digitChar (n / 100 % 10)) = some (n / 100) :=
    fourVal_digits (by omega)
  have g2 : twoVal (digitChar (n % 100 / 10)) (digitChar (n % 100 % 10)) = some (n % 100) :=
    twoVal_digits (by omega)
  simp only [sixVal, g1, g2, Option.bind_eq_bind, Option.some_bind]
  exact congrArg some (by omega)

set_option maxHeartbeats 1000000 in
theorem parseIso_isoformat {t : DateTime} (h : t.WF) :
    parseIsoChars (isoformat t).data = some t := by
  obtain ⟨y, mo, d, hh, mi, s, u⟩ := t
  have hWF := h
  unfold DateTime.WF at h
  dsimp only at h
  obtain ⟨h1, h2, h3, h4, h5, h6, h7, h8, h9, h10⟩ := h
  have gy : fourVal (digitChar (y / 1000)) (digitChar (y / 100 % 10))
      (digitChar (y / 10 % 10)) (digitChar (y % 10)) = some y := fourVal_digits (by omega)
  have gmo : twoVal (digitChar (mo / 10)) (digitChar (mo % 10)) = some mo :=
    twoVal_digits (by omega)
  have gd : twoVal (digitChar (d / 10)) (digitChar (d % 10)) = some d :=
    twoVal_digits (by omega)
  have ghh : twoVal (digitChar (hh / 10)) (digitChar (hh % 10)) = some hh :=
    twoVal_digits (by omega)
  have gmi : twoVal (digitChar (mi / 10)) (digitChar (mi % 10)) = some mi :=
    twoVal_digits (by omega)
  have gs : twoVal (digitChar (s / 10)) (digitChar (s % 10)) = some s :=
    twoVal_digits (by omega)
  by_cases hu : u = 0
  · subst hu
    have hlist : (isoformat ⟨y, mo, d, hh, mi, s, 0⟩).data =
        digitChar (y / 1000) :: digitChar (y / 100 % 10) :: digitChar (y / 10 % 10) ::
        digitChar (y % 10) :: '-' :: digitChar (mo / 10) :: digitChar (mo % 10) :: '-' ::
        digitChar (d / 10) :: digitChar (d % 10) :: 'T' :: digitChar (hh / 10) ::
        digitChar (hh % 10) :: ':' :: digitChar (mi / 10) :: digitChar (mi % 10) :: ':' ::
        digitChar (s / 10) :: digitChar (s % 10) :: [] := by
      simp [isoformat, isoformatChars, fourDigits, twoDigits]
    rw [hlist]
    simp only [parseIsoChars]
    rw [if_pos ⟨trivial, trivial, trivial, trivial, trivial⟩]
    simp only [gy, gmo, gd, ghh, gmi, gs, Option.bind_eq_bind, Option.some_bind]
    rw [if_pos hWF]
  · have gu : sixVal (digitChar (u / 100000)) (digitChar (u / 10000 % 10))
        (digitChar (u / 1000 % 10)) (digitChar (u / 100 % 10)) (digitChar (u / 10 % 10))
        (digitChar (u % 10)) = some u := sixVal_digits (by omega)
    have hlist : (isoformat ⟨y, mo, d, hh, mi, s, u⟩).data =
        digitChar (y / 1000) :: digitChar (y / 100 % 10) :: digitChar (y / 10 % 10) ::
        digitChar (y % 10) :: '-' :: digitChar (mo / 10) :: digitChar (mo % 10) :: '-' ::
        digitChar (d / 10) :: digitChar (d % 10) :: 'T' :: digitChar (hh / 10) ::
        digitChar (hh % 10) :: ':' :: digitChar (mi / 10) :: digitChar (mi % 10) :: ':' ::
        digitChar (s / 10) :: digitChar (s % 10) :: '.' :: digitChar (u / 100000) ::
        digitChar (u / 10000 % 10) :: digitChar (u / 1000 % 10) :: digitChar (u / 100 % 10) ::
        digitChar (u / 10 % 10) :: digitChar (u % 10) :: [] := by
      simp [isoformat, isoformatChars, fourDigits, twoDigits, sixDigits, if_neg hu]
    rw [hlist]
    simp only [parseIsoChars]
    rw [if_pos ⟨trivial, trivial, trivial, trivial, trivial⟩]
    simp only [if_true, gy, gmo, gd, ghh, gmi, gs, gu, Option.bind_eq_bind, Option.some_bind]
    rw [if_pos hWF]
/-! ### Concrete sample inputs for witnesses and counterexamples -/

/-- A concrete wall-clock reading (with a nonzero microsecond field). -/
def t2024 : DateTime := ⟨2024, 5, 17, 12, 34, 56, 789012⟩

/-- An empty process environment. -/
def emptyEnv : String → Option String := fun _ => none

/-- A concrete world: empty environment, plain hostname. -/
def demoWorld : World := ⟨emptyEnv, "demo-host", t2024, "3.12.0"⟩

/-- An environment with `ENVIRONMENT=staging`. -/
def stagingEnv : String → Option String :=
  fun k => if k = "ENVIRONMENT" then some "staging" else none

/-- A world whose environment sets `ENVIRONMENT=staging`. -/
def stagingWorld : World := ⟨stagingEnv, "demo-host", t2024, "3.12.0"⟩

/-- An environment with `PORT=8080`. -/
def portEnv : String → Option String :=
  fun k => if k = "PORT" then some "8080" else none

/-- A world whose environment sets `PORT=8080`. -/
def portWorld : World := ⟨portEnv, "demo-host", t2024, "3.12.0"⟩

/-! ### The claims -/

/-- C1: for every request, `GET /api/status` returns HTTP 200 with a JSON
body exactly equal to
`{"status":"ok","message":"Application is running successfully"}`, regardless
of environment variables, hostname, or clock (the response is one constant
for every `World`). -/
theorem api_status_exact_response (w : World) :
    dispatch w ⟨"/api/status", "GET"⟩ =
      ⟨200, .json (.obj [("status", .str "ok"),
        ("message", .str "Application is running successfully")])⟩ := rfl

/-- C10: any two executions of the `GET /api/status` handler, under arbitrary
and possibly different environments, hostnames and clock readings, produce
identical responses. -/
theorem api_status_independent_of_world (w₁ w₂ : World) :
    dispatch w₁ ⟨"/api/status", "GET"⟩ = dispatch w₂ ⟨"/api/status", "GET"⟩ := by
  have h1 : dispatch w₁ ⟨"/api/status", "GET"⟩ = status w₁ := rfl
  have h2 : dispatch w₂ ⟨"/api/status", "GET"⟩ = status w₂ := rfl
  rw [h1, h2]
  rfl

/-- C2 counterexample: at a concrete world the `GET /api/info` key set is not
the claimed one — the code emits a `python_version` key where the claim
expects `runtime_version`. -/
theorem api_info_runtime_version_counterexample :
    (dispatch demoWorld ⟨"/api/info", "GET"⟩).json.keys ≠
      ["application", "hostname", "timestamp", "port", "environment",
       "runtime_version", "status"] ∧
    "runtime_version" ∉ (dispatch demoWorld ⟨"/api/info", "GET"⟩).json.keys := by
  decide

/-- C2 (amended): for every request, `GET /api/info` returns HTTP 200 with a
JSON object whose key set is exactly
`{application, hostname, timestamp, port, environment, python_version,
status}` and whose `status` field equals `"running"`. -/
theorem api_info_key_set_amended (w : World) :
    (dispatch w ⟨"/api/info", "GET"⟩).status = 200 ∧
    (dispatch w ⟨"/api/info", "GET"⟩).json.keys =
      ["application", "hostname", "timestamp", "port", "environment",
       "python_version", "status"] ∧
    (dispatch w ⟨"/api/info", "GET"⟩).json.lookup "status" = some (.str "running") :=
  ⟨rfl, rfl, rfl⟩

/-- C3: for every request, `GET /api/health` returns HTTP 200 with
`status = "healthy"`, `service = "hng13-devops-stage1"`,
`version = "1.0.0"`, and a `timestamp` that is a parseable ISO-8601 datetime
string (it parses back to the clock reading). -/
theorem api_health_contract (w : World) (h : w.now.WF) :
    (dispatch w ⟨"/api/health", "GET"⟩).status = 200 ∧
    (dispatch w ⟨"/api/health", "GET"⟩).json.lookup "status" = some (.str "healthy") ∧
    (dispatch w ⟨"/api/health", "GET"⟩).json.lookup "service" =
      some (.str "hng13-devops-stage1") ∧
    (dispatch w ⟨"/api/health", "GET"⟩).json.lookup "version" = some (.str "1.0.0") ∧
    (dispatch w ⟨"/api/health", "GET"⟩).json.lookup "timestamp" =
      some (.str (isoformat w.now)) ∧
    parseIsoChars (isoformat w.now).data = some w.now :=
  ⟨rfl, rfl, rfl, rfl, rfl, parseIso_isoformat h⟩

/-- C3 witness: the health contract at a concrete world. -/
theorem api_health_contract_witness :
    demoWorld.now.WF ∧
    ((dispatch demoWorld ⟨"/api/health", "GET"⟩).status = 200 ∧
    (dispatch demoWorld ⟨"/api/health", "GET"⟩).json.lookup "status" =
      some (.str "healthy") ∧
    (dispatch demoWorld ⟨"/api/health", "GET"⟩).json.lookup "service" =
      some (.str "hng13-devops-stage1") ∧
    (dispatch demoWorld ⟨"/api/health", "GET"⟩).json.lookup "version" =
      some (.str "1.0.0") ∧
    (dispatch demoWorld ⟨"/api/health", "GET"⟩).json.lookup "timestamp" =
      some (.str (isoformat demoWorld.now)) ∧
    parseIsoChars (isoformat demoWorld.now).data = some demoWorld.now) :=
  ⟨by decide, api_health_contract demoWorld (by decide)⟩

/-- C4: every request whose path is not a registered route, with any HTTP
method, gets HTTP 404 with a JSON body whose `error` field is `"Not Found"`,
whose `message` field is a string, and whose `status` field is the number
404. -/
theorem unmatched_path_returns_404 (w : World) (r : Request) (h : r.path ∉ routes) :
    dispatch w r = not_found ∧
    (dispatch w r).status = 404 ∧
    (dispatch w r).json.lookup "error" = some (.str "Not Found") ∧
    (∃ m, (dispatch w r).json.lookup "message" = some (.str m)) ∧
    (dispatch w r).json.lookup "status" = some (.num 404) := by
  obtain ⟨p, m⟩ := r
  simp only [routes, List.mem_cons, List.not_mem_nil, or_false, not_or] at h
  obtain ⟨h1, h2, h3, h4⟩ := h
  have hd : dispatch w ⟨p, m⟩ = not_found := by
    simp only [dispatch]
    rw [if_neg h1, if_neg h2, if_neg h3, if_neg h4]
  refine ⟨hd, ?_, ?_, ⟨"The requested endpoint does not exist", ?_⟩, ?_⟩ <;> rw [hd] <;> rfl

/-- C4 witness: a POST to an unregistered path at a concrete world. -/
theorem unmatched_path_returns_404_witness :
    ("/nonexistent" ∉ routes) ∧
    (dispatch demoWorld ⟨"/nonexistent", "POST"⟩ = not_found ∧
    (dispatch demoWorld ⟨"/nonexistent", "POST"⟩).status = 404 ∧
    (dispatch demoWorld ⟨"/nonexistent", "POST"⟩).json.lookup "error" =
      some (.str "Not Found") ∧
    (∃ m, (dispatch demoWorld ⟨"/nonexistent", "POST"⟩).json.lookup "message" =
      some (.str m)) ∧
    (dispatch demoWorld ⟨"/nonexistent", "POST"⟩).json.lookup "status" =
      some (.num 404)) :=
  ⟨by decide, unmatched_path_returns_404 demoWorld ⟨"/nonexistent", "POST"⟩ (by decide)⟩

/-- C5: whenever a handler raises an unhandled exception, the boundary
response is HTTP 500 with `error = "Internal Server Error"` and
`status = 500`; `request_boundary` is a total function, so the fault never
escapes to kill the process. -/
theorem handler_fault_returns_500 (w : World) (r : Request) (e : String) :
    request_boundary w r (some e) = internal_error ∧
    (request_boundary w r (some e)).status = 500 ∧
    (request_boundary w r (some e)).json.lookup "error" =
      some (.str "Internal Server Error") ∧
    (request_boundary w r (some e)).json.lookup "status" = some (.num 500) :=
  ⟨rfl, rfl, rfl, rfl⟩
/-- C6: for every request, `GET /` returns HTTP 200 with an HTML body
containing the literal string `RUNNING`, the machine hostname, and the
current wall-clock time formatted `YYYY-MM-DD HH:MM:SS` (for hostnames free
of HTML-escapable characters, as machine hostnames are). -/
theorem home_page_contains_status_hostname_time (w : World)
    (hsafe : HtmlSafe w.hostname) (hwf : w.now.WF) :
    (dispatch w ⟨"/", "GET"⟩).status = 200 ∧
    ∃ page, (dispatch w ⟨"/", "GET"⟩).body = .html page ∧
      Contains page "RUNNING" ∧ Contains page w.hostname ∧
      Contains page (strftimeYmdHms w.now) := by
  refine ⟨rfl, renderHome w.hostname (strftimeYmdHms w.now)
      (getenv w.env "PORT" "5000") (getenv w.env "ENVIRONMENT" "production"), rfl, ?_, ?_, ?_⟩
  · unfold renderHome
    exact ((((((((((contains_refl "RUNNING").prepend tpl0a).extend tpl0b).extend
      _).extend tpl1).extend _).extend tpl2).extend _).extend tpl3).extend _).extend tpl4
  · unfold renderHome
    rw [htmlEscape_safe hsafe]
    exact ((((((((contains_refl w.hostname).prepend _).extend tpl1).extend _).extend
      tpl2).extend _).extend tpl3).extend _).extend tpl4
  · unfold renderHome
    rw [htmlEscape_safe (htmlSafe_strftime hwf)]
    exact ((((((contains_refl (strftimeYmdHms w.now)).prepend _).extend tpl2).extend
      _).extend tpl3).extend _).extend tpl4

/-- C6 witness: the home-page contract at a concrete world. -/
theorem home_page_contains_witness :
    HtmlSafe demoWorld.hostname ∧ demoWorld.now.WF ∧
    ((dispatch demoWorld ⟨"/", "GET"⟩).status = 200 ∧
    ∃ page, (dispatch demoWorld ⟨"/", "GET"⟩).body = .html page ∧
      Contains page "RUNNING" ∧ Contains page demoWorld.hostname ∧
      Contains page (strftimeYmdHms demoWorld.now)) :=
  ⟨by decide, by decide,
    home_page_contains_status_hostname_time demoWorld (by decide) (by decide)⟩

/-- C7: the value of `ENVIRONMENT` (defaulting to `"production"` when unset)
is what `GET /api/info` reports in its `environment` field and what the home
page displays. -/
theorem environment_variable_displayed (w : World)
    (hsafe : HtmlSafe (getenv w.env "ENVIRONMENT" "production")) :
    (∀ v, w.env "ENVIRONMENT" = some v →
      getenv w.env "ENVIRONMENT" "production" = v) ∧
    (w.env "ENVIRONMENT" = none →
      getenv w.env "ENVIRONMENT" "production" = "production") ∧
    (dispatch w ⟨"/api/info", "GET"⟩).json.lookup "environment" =
      some (.str (getenv w.env "ENVIRONMENT" "production")) ∧
    ∃ page, (dispatch w ⟨"/", "GET"⟩).body = .html page ∧
      Contains page (getenv w.env "ENVIRONMENT" "production") := by
  refine ⟨fun v hv => ?_, fun hv => ?_, rfl, renderHome w.hostname (strftimeYmdHms w.now)
      (getenv w.env "PORT" "5000") (getenv w.env "ENVIRONMENT" "production"), rfl, ?_⟩
  · unfold getenv
    rw [hv]
    rfl
  · unfold getenv
    rw [hv]
    rfl
  · unfold renderHome
    rw [htmlEscape_safe hsafe]
    exact ((contains_refl (getenv w.env "ENVIRONMENT" "production")).prepend _).extend tpl4

/-- C7 witness: with `ENVIRONMENT=staging` the displays show `staging`. -/
theorem environment_variable_displayed_witness :
    HtmlSafe (getenv stagingWorld.env "ENVIRONMENT" "production") ∧
    ((∀ v, stagingWorld.env "ENVIRONMENT" = some v →
      getenv stagingWorld.env "ENVIRONMENT" "production" = v) ∧
    (stagingWorld.env "ENVIRONMENT" = none →
      getenv stagingWorld.env "ENVIRONMENT" "production" = "production") ∧
    (dispatch stagingWorld ⟨"/api/info", "GET"⟩).json.lookup "environment" =
      some (.str (getenv stagingWorld.env "ENVIRONMENT" "production")) ∧
    ∃ page, (dispatch stagingWorld ⟨"/", "GET"⟩).body = .html page ∧
      Contains page (getenv stagingWorld.env "ENVIRONMENT" "production")) :=
  ⟨by decide, environment_variable_displayed stagingWorld (by decide)⟩

/-- C8: at startup the server binds host `0.0.0.0` and the port from `PORT`
interpreted as an integer (5000 when unset), and the home page displays the
`PORT` value. -/
theorem port_binding_and_home_display (w : World)
    (hsafe : HtmlSafe (getenv w.env "PORT" "5000")) :
    (w.env "PORT" = none →
      mainStartup w.env = .ok ⟨"0.0.0.0", 5000, debugFlag w.env⟩) ∧
    (∀ s n, w.env "PORT" = some s → pyInt s = some n →
      mainStartup w.env = .ok ⟨"0.0.0.0", n, debugFlag w.env⟩) ∧
    ∃ page, (dispatch w ⟨"/", "GET"⟩).body = .html page ∧
      Contains page (getenv w.env "PORT" "5000") := by
  refine ⟨fun hnone => ?_, fun s n hs hn => ?_, renderHome w.hostname (strftimeYmdHms w.now)
      (getenv w.env "PORT" "5000") (getenv w.env "ENVIRONMENT" "production"), rfl, ?_⟩
  · unfold mainStartup portNumber
    rw [hnone]
  · unfold mainStartup portNumber
    rw [hs]
    dsimp only
    rw [hn]
  · unfold renderHome
    rw [htmlEscape_safe hsafe]
    exact ((((contains_refl (getenv w.env "PORT" "5000")).prepend _).extend
      tpl3).extend _).extend tpl4

/-- C8 witness: with `PORT=8080` the startup binds 8080 and the home page
displays it. -/
theorem port_binding_and_home_display_witness :
    HtmlSafe (getenv portWorld.env "PORT" "5000") ∧
    ((portWorld.env "PORT" = none →
      mainStartup portWorld.env = .ok ⟨"0.0.0.0", 5000, debugFlag portWorld.env⟩) ∧
    (∀ s n, portWorld.env "PORT" = some s → pyInt s = some n →
      mainStartup portWorld.env = .ok ⟨"0.0.0.0", n, debugFlag portWorld.env⟩) ∧
    ∃ page, (dispatch portWorld ⟨"/", "GET"⟩).body = .html page ∧
      Contains page (getenv portWorld.env "PORT" "5000")) :=
  ⟨by decide, port_binding_and_home_display portWorld (by decide)⟩

/-- C9: the startup debug flag is true exactly when the `DEBUG` environment
variable, lowercased, is the string `"true"`; any other value, and `DEBUG`
unset, give false. -/
theorem debug_flag_true_iff_lowercase_true (env : String → Option String) :
    debugFlag env = true ↔ ∃ s, env "DEBUG" = some s ∧ pyLower s = "true" := by
  unfold debugFlag
  cases hd : env "DEBUG" with
  | none =>
    simp only [Option.getD_none]
    constructor
    · intro hcontra
      exact absurd hcontra (by decide)
    · rintro ⟨s, hs, _⟩
      cases hs
  | some s =>
    simp only [Option.getD_some]
    constructor
    · intro htrue
      exact ⟨s, rfl, beq_iff_eq.mp htrue⟩
    · rintro ⟨s', hs', hlow⟩
      injection hs' with hss
      subst hss
      exact beq_iff_eq.mpr hlow
